import Mathlib

/-!
Verification of the CivicConnect civic-issue-reporting application.

The visible source is the React client (Dashboard, ReportDetail, CreateReport,
AdminDashboard, AuthContext).  Client-side logic — list filtering, role gates,
button-disable conditions, the image selector and the reverse-geocoding
fallback — is embedded directly from the JavaScript.  The backend Lifecycle
Manager (CreateReport, UpdateStatus, AddComment, AssignTechnician) is not in
the visible source; those operations are modelled from the specification and
are marked as such in their doc comments.
-/

namespace CivicConnect

/-! ## JS string primitives

`jsIncludes` embeds JavaScript `String.prototype.includes` (substring test;
the empty string is a substring of everything), `jsToLower` embeds
`String.prototype.toLowerCase`. -/

/-- `segAt hay needle`: does `needle` occur at the very start of `hay`?
(Embeds the per-position check underlying `String.prototype.includes`.) -/
def segAt : List Char → List Char → Bool
  | _, [] => true
  | [], _ :: _ => false
  | a :: as, b :: bs => a == b && segAt as bs

/-- `jsIncludesL hay needle`: does `needle` occur contiguously anywhere in
`hay`?  Embeds JavaScript `hay.includes(needle)` on character lists. -/
def jsIncludesL : List Char → List Char → Bool
  | hay, needle =>
    if segAt hay needle then true
    else
      match hay with
      | [] => false
      | _ :: t => jsIncludesL t needle

/-- JavaScript `s.includes(sub)`. -/
def jsIncludes (s sub : String) : Bool :=
  jsIncludesL s.data sub.data

/-- JavaScript `s.toLowerCase()` (character-wise lowering). -/
def jsToLower (s : String) : String :=
  String.mk (s.data.map Char.toLower)

theorem segAt_iff (hay needle : List Char) :
    segAt hay needle = true ↔ ∃ post, hay = needle ++ post := by
  induction needle generalizing hay with
  | nil => simp [segAt]
  | cons b bs ih =>
    cases hay with
    | nil => simp [segAt]
    | cons a as =>
      simp only [segAt, Bool.and_eq_true, beq_iff_eq, ih]
      constructor
      · rintro ⟨rfl, post, rfl⟩; exact ⟨post, rfl⟩
      · rintro ⟨post, h⟩
        injection h with h1 h2
        exact ⟨h1, post, h2⟩

theorem jsIncludesL_iff (hay needle : List Char) :
    jsIncludesL hay needle = true ↔ ∃ pre post, hay = pre ++ needle ++ post := by
  induction hay with
  | nil =>
    rw [jsIncludesL]
    cases needle with
    | nil => simp [segAt]
    | cons b bs =>
      simp only [segAt]
      constructor
      · intro h; simp at h
      · rintro ⟨pre, post, h⟩
        exact absurd h (by simp)
  | cons a t ih =>
    rw [jsIncludesL]
    by_cases hseg : segAt (a :: t) needle = true
    · simp only [hseg, if_true, true_iff]
      obtain ⟨post, hp⟩ := (segAt_iff _ _).mp hseg
      exact ⟨[], post, by simpa using hp⟩
    · simp only [hseg, if_false, Bool.false_eq_true]
      rw [ih]
      constructor
      · rintro ⟨pre, post, rfl⟩
        exact ⟨a :: pre, post, rfl⟩
      · rintro ⟨pre, post, h⟩
        cases pre with
        | nil =>
          exfalso
          exact hseg ((segAt_iff _ _).mpr ⟨post, by simpa using h⟩)
        | cons p ps =>
          injection h with h1 h2
          exact ⟨ps, post, h2⟩

theorem jsIncludes_empty (s : String) : jsIncludes s "" = true := by
  cases s with
  | mk data => cases data <;> simp [jsIncludes, jsIncludesL, segAt]

/-! ## Data model

Statuses, categories, priorities and roles are strings in the JSON the client
exchanges with the backend; the enumerations below are the ones rendered in
the client's `SelectItem` lists and documented in the spec. -/

def validStatuses : List String := ["registered", "in_progress", "resolved", "closed"]

def validCategories : List String :=
  ["water", "road", "electricity", "garbage", "streetlight", "other"]

def validPriorities : List String := ["low", "medium", "high"]

/-- A resolved user identity (`{id, name, role}` from the identity resolver). -/
structure Identity where
  id : String
  name : String
  role : String
  deriving DecidableEq, Repr

/-- One entry of a report's audit timeline. -/
structure TimelineEntry where
  status : String
  comment : Option String
  by_user : String
  timestamp : Nat
  deriving DecidableEq, Repr

/-- Map-pinned location of a report; coordinates are exact micro-degree
fixed-point values (degrees scaled by 10^6). -/
structure Location where
  lat : Int
  lng : Int
  address : String
  deriving DecidableEq, Repr

/-- A report record as the client reads it from the backend. -/
structure Report where
  id : String
  title : String
  description : Option String
  category : String
  priority : String
  status : String
  location : Location
  images : List String
  created_by_id : Option String
  assigned_to : Option String
  timeline : List TimelineEntry
  created_at : Nat
  deriving DecidableEq, Repr

/-- A comment on a report. -/
structure Comment where
  user : String
  text : String
  created_at : Nat
  deriving DecidableEq, Repr

/-! ## Client-side report filtering

`AdminDashboard.filteredReports` combines a case-insensitive search over title
and description with status and category dropdowns; `Dashboard.filteredReports`
applies the search only (status/category go to the server as query params). -/

/-- `report.title.toLowerCase().includes(searchTerm.toLowerCase()) ||
report.description?.toLowerCase().includes(searchTerm.toLowerCase())`:
a missing description (`undefined` after optional chaining) is falsy. -/
def matchesSearch (searchTerm : String) (r : Report) : Bool :=
  jsIncludes (jsToLower r.title) (jsToLower searchTerm) ||
    (match r.description with
     | some d => jsIncludes (jsToLower d) (jsToLower searchTerm)
     | none => false)

/-- `!statusFilter || statusFilter === 'all' || report.status === statusFilter`. -/
def matchesStatus (statusFilter : String) (r : Report) : Bool :=
  statusFilter == "" || statusFilter == "all" || r.status == statusFilter

/-- `!categoryFilter || categoryFilter === 'all' || report.category === categoryFilter`. -/
def matchesCategory (categoryFilter : String) (r : Report) : Bool :=
  categoryFilter == "" || categoryFilter == "all" || r.category == categoryFilter

/-- `AdminDashboard.filteredReports`: search, status and category predicates
conjoined with `&&`. -/
def filteredReports (reports : List Report)
    (searchTerm statusFilter categoryFilter : String) : List Report :=
  reports.filter fun r =>
    matchesSearch searchTerm r && matchesStatus statusFilter r &&
      matchesCategory categoryFilter r

/-- `Dashboard.filteredReports`: the search predicate alone. -/
def dashFilteredReports (reports : List Report) (searchTerm : String) : List Report :=
  reports.filter fun r => matchesSearch searchTerm r

/-- `Dashboard.myReports`: `user ? filteredReports.filter(r => r.created_by_id === user.id) : []`.
A report with no `created_by_id` compares unequal to any user's id. -/
def myReports (reports : List Report) (searchTerm : String)
    (user : Option Identity) : List Report :=
  match user with
  | none => []
  | some u => (dashFilteredReports reports searchTerm).filter
      fun r => r.created_by_id == some u.id

/-! ## Lifecycle Manager (modelled from the spec)

The backend behind `/api/reports` is not in the visible source; only its HTTP
callers are.  The operations below are modelled from spec §4.1 and the error
taxonomy of §7. -/

/-- The actor recorded on the seed timeline entry: the creator's id, or
`anonymous` for an unauthenticated submission (spec §4.1). -/
def creatorName (actor : Option Identity) : String :=
  match actor with
  | some a => a.id
  | none => "anonymous"

/-- Error taxonomy of spec §7. -/
inductive LMError where
  | Unauthorized
  | Forbidden
  | NotFound
  | InvalidArgument
  deriving DecidableEq, Repr

/-- Modelled from the spec: the Lifecycle Manager's `CreateReport` is not in
the visible source.  Per §4.1: `title` non-empty; `category` defaults to
`other` when not in the enumeration; `priority` defaults to `medium`;
`images` length ≤ 5; result has `status = registered` and a timeline seeded
with one `registered` entry whose actor is the creator or `anonymous`. -/
def CreateReport (rid title : String) (description : Option String)
    (category priority : String) (loc : Location) (images : List String)
    (actor : Option Identity) (now : Nat) : Except LMError Report :=
  if title = "" then .error .InvalidArgument
  else if images.length > 5 then .error .InvalidArgument
  else
    let cat := if validCategories.contains category then category else "other"
    let pri := if validPriorities.contains priority then priority else "medium"
    let actorName := creatorName actor
    .ok
      { id := rid
        title := title
        description := description
        category := cat
        priority := pri
        status := "registered"
        location := loc
        images := images
        created_by_id := actor.map Identity.id
        assigned_to := none
        timeline := [⟨"registered", none, actorName, now⟩]
        created_at := now }

/-- Modelled from the spec: the Lifecycle Manager's `UpdateStatus` is not in
the visible source.  Per §4.1: fails `Forbidden` unless `actor.role` is
`admin` or `technician`; fails `InvalidArgument` when `newStatus` is outside
the enumeration; otherwise appends a timeline entry and sets `status` —
with no transition-adjacency guard and no idempotence guard. -/
def UpdateStatus (r : Report) (actor : Identity) (newStatus : String)
    (comment : Option String) (now : Nat) : Except LMError Report :=
  if actor.role ≠ "admin" ∧ actor.role ≠ "technician" then .error .Forbidden
  else if ¬ validStatuses.contains newStatus then .error .InvalidArgument
  else .ok { r with
    status := newStatus
    timeline := r.timeline ++ [⟨newStatus, comment, actor.id, now⟩] }

/-- Modelled from the spec: the Lifecycle Manager's `AddComment` is not in
the visible source.  Per §4.1: fails `Unauthorized` when the actor is absent,
`NotFound` when the report does not resolve, and (per §7's taxonomy for an
empty required field) `InvalidArgument` when `text` is empty; otherwise
appends the comment. -/
def AddComment (comments : List Comment) (reportExists : Bool)
    (actor : Option Identity) (text : String) (now : Nat) :
    Except LMError (List Comment) :=
  match actor with
  | none => .error .Unauthorized
  | some a =>
    if ¬ reportExists then .error .NotFound
    else if text = "" then .error .InvalidArgument
    else .ok (comments ++ [⟨a.id, text, now⟩])

/-- Modelled from the spec: the Lifecycle Manager's `AssignTechnician` is not
in the visible source.  Per §4.1: fails `Forbidden` unless the actor is an
admin; fails `InvalidArgument` when the target identity is not a technician;
otherwise sets `assigned_to` without touching the timeline. -/
def AssignTechnician (r : Report) (actor : Identity) (target : Identity) :
    Except LMError Report :=
  if actor.role ≠ "admin" then .error .Forbidden
  else if target.role ≠ "technician" then .error .InvalidArgument
  else .ok { r with assigned_to := some target.id }

/-- A sequence of `UpdateStatus` invocations against one report. -/
structure UpdateOp where
  actor : Identity
  newStatus : String
  comment : Option String
  now : Nat
  deriving Repr

/-- Run a sequence of `UpdateStatus` calls, keeping the report unchanged on a
failed call; returns the final report and the number of accepted calls. -/
def applyUpdates (r : Report) : List UpdateOp → Report × Nat
  | [] => (r, 0)
  | op :: rest =>
    match UpdateStatus r op.actor op.newStatus op.comment op.now with
    | .ok r2 =>
      let p := applyUpdates r2 rest
      (p.1, p.2 + 1)
    | .error _ => applyUpdates r rest

/-! ## Client handlers and UI gates (from the source) -/

/-- The observable effect of a client event handler: either no request is
issued, or one HTTP request is sent. -/
inductive ClientAction where
  | noRequest
  | putStatus (reportId status comment : String)
  | postComment (reportId text : String)
  deriving DecidableEq, Repr

/-- `ReportDetail.handleStatusUpdate`: returns without a request unless the
user exists and has role `admin` or `technician`; otherwise PUTs
`{status, comment}`. -/
def handleStatusUpdate (user : Option Identity)
    (reportId newStatus statusComment : String) : ClientAction :=
  match user with
  | none => .noRequest
  | some u =>
    if u.role ≠ "admin" ∧ u.role ≠ "technician" then .noRequest
    else .putStatus reportId newStatus statusComment

/-- `ReportDetail.handleAddComment`: returns without a request when `user` is
null; otherwise POSTs `{text: newComment}`. -/
def handleAddComment (user : Option Identity)
    (reportId newComment : String) : ClientAction :=
  match user with
  | none => .noRequest
  | some _ => .postComment reportId newComment

/-- `ReportDetail`: the Update Status card is rendered iff
`user && (user.role === 'admin' || user.role === 'technician')`. -/
def statusCardRendered (user : Option Identity) : Bool :=
  match user with
  | none => false
  | some u => u.role == "admin" || u.role == "technician"

/-- `ReportDetail`: `update-status-btn` is
`disabled={newStatus === report.status && !statusComment}` (a string state is
falsy exactly when empty). -/
def updateStatusBtnDisabled (newStatus reportStatus statusComment : String) : Bool :=
  newStatus == reportStatus && statusComment == ""

/-- JavaScript `s.trim()`: strip whitespace from both ends. -/
def jsTrim (s : String) : String :=
  String.mk (((s.data.dropWhile Char.isWhitespace).reverse.dropWhile
    Char.isWhitespace).reverse)

/-- `ReportDetail`: `add-comment-btn` is `disabled={!newComment.trim()}`. -/
def addCommentBtnDisabled (newComment : String) : Bool :=
  jsTrim newComment == ""

/-- `AdminDashboard`: `users.filter((u) => u.role === 'technician')` — the
only identities offered as assignment targets. -/
def technicians (users : List Identity) : List Identity :=
  users.filter fun u => u.role == "technician"

/-- `AdminDashboard`: the effect guard `if (user?.role !== 'admin')` which
redirects to `/dashboard`; a null user also redirects. -/
def adminGateRedirects (user : Option Identity) : Bool :=
  match user with
  | none => true
  | some u => u.role != "admin"

/-- `CreateReport.handleImageSelect`: rejects the whole selection (toast, no
state change) when `images.length + files.length > 5`, else appends all
selected files in order. -/
def handleImageSelect (images files : List String) : List String :=
  if images.length + files.length > 5 then images
  else images ++ files

/-- `CreateReport.removeImage`: `images.filter((_, i) => i !== index)`. -/
def removeImage (images : List String) (index : Nat) : List String :=
  (images.enum.filter fun p => p.1 ≠ index).map Prod.snd

/-! ## Reverse geocoding (from the source)

`reverseGeocode` awaits the nominatim call; on success the address becomes
`response.data.display_name`, on any error it degrades to
`` `${lat.toFixed(6)}, ${lng.toFixed(6)}` ``.  Coordinates are embedded as
exact micro-degree integers, so `toFixed(6)` renders sign, integer part, a
dot, and the six fraction digits. -/

/-- The decimal digit character for `d < 10`. -/
def digitChar (d : Nat) : Char :=
  Char.ofNat (48 + d)

/-- The six fraction digits of a micro-degree remainder, most significant
first (the fraction part of JavaScript `toFixed(6)`). -/
def fracDigits6 (fp : Nat) : String :=
  String.mk ([fp / 100000 % 10, fp / 10000 % 10, fp / 1000 % 10,
              fp / 100 % 10, fp / 10 % 10, fp % 10].map digitChar)

/-- JavaScript `x.toFixed(6)` for a coordinate held exactly as micro-degrees
(`x = microdeg / 10^6`). -/
def toFixed6 (microdeg : Int) : String :=
  let sign := if microdeg < 0 then "-" else ""
  let m := microdeg.natAbs
  sign ++ toString (m / 1000000) ++ "." ++ fracDigits6 (m % 1000000)

/-- `reverseGeocode`: the address produced for a geocoding outcome — the
service's `display_name` on success, the fallback coordinate string on error.
The surrounding handler never observes a failure. -/
def reverseGeocode (outcome : Except String String) (lat lng : Int) : String :=
  match outcome with
  | .ok displayName => displayName
  | .error _ => toFixed6 lat ++ ", " ++ toFixed6 lng

/-! ## Sample data shared by the concrete witnesses -/

def sampleLoc : Location := ⟨40000000, -75000000, "123 Main St"⟩

def sampleAdmin : Identity := ⟨"a1", "Alice", "admin"⟩

def sampleTech : Identity := ⟨"t1", "Tom", "technician"⟩

def samplePlainUser : Identity := ⟨"u1", "Uma", "user"⟩

/-- The report produced by `CreateReport` on the sample inputs. -/
def sampleReport0 : Report :=
  { id := "r1"
    title := "Pothole on Main St"
    description := none
    category := "road"
    priority := "high"
    status := "registered"
    location := sampleLoc
    images := []
    created_by_id := some "u1"
    assigned_to := none
    timeline := [⟨"registered", none, "u1", 7⟩]
    created_at := 7 }

/-! ## Supporting lemmas -/

theorem matchesSearch_iff (st : String) (r : Report) :
    matchesSearch st r = true ↔
      ((∃ pre post, (jsToLower r.title).data = pre ++ (jsToLower st).data ++ post) ∨
       (∃ d pre post, r.description = some d ∧
          (jsToLower d).data = pre ++ (jsToLower st).data ++ post)) := by
  unfold matchesSearch
  cases hd : r.description with
  | none =>
    simp only [Bool.or_false, jsIncludes, jsIncludesL_iff]
    constructor
    · intro h; exact Or.inl h
    · rintro (h | ⟨d, pre, post, hsome, _⟩)
      · exact h
      · simp [hd] at hsome
  | some d =>
    simp only [Bool.or_eq_true, jsIncludes, jsIncludesL_iff]
    constructor
    · rintro (h | h)
      · exact Or.inl h
      · exact Or.inr ⟨d, h.choose, h.choose_spec.choose, rfl, h.choose_spec.choose_spec⟩
    · rintro (h | ⟨d2, pre, post, hsome, hh⟩)
      · exact Or.inl h
      · injection hsome with hde
        exact Or.inr ⟨pre, post, hde ▸ hh⟩

theorem matchesSearch_empty (r : Report) : matchesSearch "" r = true := by
  unfold matchesSearch
  have h : jsToLower "" = "" := rfl
  rw [h, jsIncludes_empty]
  simp

/-- An anonymous report: `created_by_id` is absent. -/
def sampleAnonReport : Report :=
  { sampleReport0 with id := "r2", created_by_id := none }

/-! ## Claim theorems -/

/-- Claim C3: for every list of reports and every filter
`{status?, category?, searchText?}`, the report-list filter keeps exactly the
reports satisfying all provided predicates conjunctively (AND, not union),
where the search text matches case-insensitively (both sides lowered) as a
substring of the title or of the description; an unprovided status or
category filter (empty or `all`) constrains nothing. -/
theorem listReports_filter_conjunctive
    (reports : List Report) (st sf cf : String) (r : Report) :
    r ∈ filteredReports reports st sf cf ↔
      r ∈ reports ∧
      ((∃ pre post, (jsToLower r.title).data = pre ++ (jsToLower st).data ++ post) ∨
       (∃ d pre post, r.description = some d ∧
          (jsToLower d).data = pre ++ (jsToLower st).data ++ post)) ∧
      (sf = "" ∨ sf = "all" ∨ r.status = sf) ∧
      (cf = "" ∨ cf = "all" ∨ r.category = cf) := by
  unfold filteredReports
  rw [List.mem_filter]
  simp only [Bool.and_eq_true, matchesSearch_iff, matchesStatus, matchesCategory,
    Bool.or_eq_true, beq_iff_eq, or_assoc]
  constructor
  · rintro ⟨h1, ⟨h2, h3⟩, h4⟩; exact ⟨h1, h2, h3, h4⟩
  · rintro ⟨h1, h2, h3, h4⟩; exact ⟨h1, ⟨h2, h3⟩, h4⟩

/-- Concrete instance of claim C3: a road report whose lowered title contains
`pothole` survives the filter `{searchText := pothole, category := road}`. -/
theorem listReports_filter_conjunctive_witness :
    sampleReport0 ∈ filteredReports [sampleReport0] "pothole" "" "road" :=
  (listReports_filter_conjunctive [sampleReport0] "pothole" "" "road" sampleReport0).mpr
    ⟨List.mem_singleton.mpr rfl,
     Or.inl ⟨[], (" on main st").data, by decide⟩,
     Or.inl rfl,
     Or.inr (Or.inr rfl)⟩

/-- Claim C10: filtering the report list with an empty search term is the
identity on the list, and a report whose description is absent is matched
through its title alone (no error: the optional chain is simply falsy). -/
theorem emptySearch_identity (reports : List Report) (st : String) (r : Report)
    (h : r.description = none) :
    dashFilteredReports reports "" = reports ∧
    (matchesSearch st r = true ↔
      jsIncludes (jsToLower r.title) (jsToLower st) = true) := by
  constructor
  · unfold dashFilteredReports
    apply List.filter_eq_self.mpr
    intro a _
    exact matchesSearch_empty a
  · unfold matchesSearch
    rw [h]
    simp

/-- Concrete instance of claim C10 at a descriptionless report. -/
theorem emptySearch_identity_witness :
    sampleReport0.description = none ∧
    (dashFilteredReports [sampleReport0] "" = [sampleReport0] ∧
     (matchesSearch "x" sampleReport0 = true ↔
       jsIncludes (jsToLower sampleReport0.title) (jsToLower "x") = true)) :=
  ⟨rfl, emptySearch_identity [sampleReport0] "x" sampleReport0 rfl⟩

/-- Claim C8: the `myReports` view contains exactly the (search-matching)
reports whose `created_by_id` equals the logged-in user's id, so a report
lacking `created_by_id` (anonymous) never appears in any per-user view. -/
theorem myReports_excludes_anonymous (reports : List Report) (st : String)
    (u : Identity) (r : Report) :
    (r ∈ myReports reports st (some u) ↔
      r ∈ dashFilteredReports reports st ∧ r.created_by_id = some u.id) ∧
    (r.created_by_id = none → r ∉ myReports reports st (some u)) := by
  have hmem : r ∈ myReports reports st (some u) ↔
      r ∈ dashFilteredReports reports st ∧ r.created_by_id = some u.id := by
    unfold myReports
    rw [List.mem_filter]
    simp
  refine ⟨hmem, ?_⟩
  intro hnone hr
  rcases hmem.mp hr with ⟨_, heq⟩
  rw [hnone] at heq
  exact Option.noConfusion heq

/-- Concrete instance of claim C8: the anonymous sample report is absent from
the per-user view while the attributed one is present. -/
theorem myReports_excludes_anonymous_witness :
    sampleAnonReport.created_by_id = none ∧
    sampleAnonReport ∉ myReports [sampleReport0, sampleAnonReport] "" (some samplePlainUser) ∧
    sampleReport0 ∈ myReports [sampleReport0, sampleAnonReport] "" (some samplePlainUser) :=
  ⟨rfl,
   (myReports_excludes_anonymous [sampleReport0, sampleAnonReport] ""
      samplePlainUser sampleAnonReport).2 rfl,
   (myReports_excludes_anonymous [sampleReport0, sampleAnonReport] ""
      samplePlainUser sampleReport0).1.mpr (by decide)⟩

/-- What a successful `UpdateStatus` did: set the status and append exactly
one timeline entry recording it. -/
theorem UpdateStatus_ok_spec (r : Report) (a : Identity) (s : String)
    (c : Option String) (t : Nat) (r2 : Report)
    (h : UpdateStatus r a s c t = .ok r2) :
    r2.status = s ∧ r2.timeline = r.timeline ++ [⟨s, c, a.id, t⟩] := by
  unfold UpdateStatus at h
  split at h
  · exact absurd h (by simp)
  · split at h
    · exact absurd h (by simp)
    · injection h with h2
      rw [← h2]
      exact ⟨rfl, rfl⟩

/-- The status field agrees with the last timeline entry. -/
def TimelineOk (r : Report) : Prop :=
  ∃ e, r.timeline.getLast? = some e ∧ e.status = r.status

theorem applyUpdates_spec (ops : List UpdateOp) (r : Report) (hinv : TimelineOk r) :
    TimelineOk (applyUpdates r ops).1 ∧
    (applyUpdates r ops).1.timeline.length =
      r.timeline.length + (applyUpdates r ops).2 := by
  induction ops generalizing r with
  | nil => simpa [applyUpdates] using hinv
  | cons op rest ih =>
    rw [applyUpdates]
    cases hcall : UpdateStatus r op.actor op.newStatus op.comment op.now with
    | ok r2 =>
      simp only
      obtain ⟨hs, ht⟩ :=
        UpdateStatus_ok_spec r op.actor op.newStatus op.comment op.now r2 hcall
      have hinv2 : TimelineOk r2 := by
        refine ⟨⟨op.newStatus, op.comment, op.actor.id, op.now⟩, ?_, by simp [hs]⟩
        rw [ht]
        exact List.getLast?_concat _
      have hlen2 : r2.timeline.length = r.timeline.length + 1 := by
        rw [ht]; simp
      obtain ⟨h1, h2⟩ := ih r2 hinv2
      refine ⟨h1, ?_⟩
      rw [h2, hlen2]
      omega
    | error e =>
      simp only
      exact ih r hinv

/-- The conjunction claimed for a report after a run of `UpdateStatus` calls:
non-empty timeline, status equal to the last entry's status, and timeline
length `1 + accepted`. -/
def StatusTimelineOk (r : Report) (accepted : Nat) : Prop :=
  r.timeline ≠ [] ∧
  (∃ e, r.timeline.getLast? = some e ∧ e.status = r.status) ∧
  r.timeline.length = 1 + accepted

/-- Claim C1: for every report created by `CreateReport` and every sequence
of `UpdateStatus` invocations (accepted ones apply, rejected ones leave the
report untouched), the status field equals the status of the last timeline
entry, the timeline is non-empty (seeded with one entry at creation), and
its length is `1 +` the number of accepted calls. -/
theorem report_status_matches_timeline
    (rid title : String) (descr : Option String) (cat pri : String)
    (loc : Location) (imgs : List String) (actor : Option Identity) (now : Nat)
    (r0 : Report) (ops : List UpdateOp)
    (hcreate : CreateReport rid title descr cat pri loc imgs actor now = .ok r0) :
    StatusTimelineOk (applyUpdates r0 ops).1 (applyUpdates r0 ops).2 := by
  have h0 : r0.status = "registered" ∧
      r0.timeline = [⟨"registered", none, creatorName actor, now⟩] := by
    unfold CreateReport at hcreate
    split at hcreate
    · exact absurd hcreate (by simp)
    · split at hcreate
      · exact absurd hcreate (by simp)
      · injection hcreate with h2
        rw [← h2]
        exact ⟨rfl, rfl⟩
  have hto : TimelineOk r0 := by
    refine ⟨⟨"registered", none, creatorName actor, now⟩, ?_, ?_⟩
    · rw [h0.2]; rfl
    · rw [h0.1]
  have hlen : r0.timeline.length = 1 := by rw [h0.2]; rfl
  obtain ⟨⟨e, he, hes⟩, h2⟩ := applyUpdates_spec ops r0 hto
  refine ⟨?_, ⟨e, he, hes⟩, ?_⟩
  · intro hnil
    rw [hnil] at he
    exact Option.noConfusion he
  · rw [h2, hlen]

/-- The sequence of status updates used by the concrete C1 instance: two
accepted staff calls around one rejected call by a plain user. -/
def sampleOps : List UpdateOp :=
  [⟨sampleAdmin, "in_progress", some "On it", 8⟩,
   ⟨samplePlainUser, "closed", none, 9⟩,
   ⟨sampleTech, "resolved", some "Fixed", 10⟩]

/-- Concrete instance of claim C1: creating the sample report and running
`sampleOps` (two accepted updates, one forbidden) keeps the invariant. -/
theorem report_status_matches_timeline_witness :
    CreateReport "r1" "Pothole on Main St" none "road" "high" sampleLoc []
        (some samplePlainUser) 7 = Except.ok sampleReport0 ∧
    StatusTimelineOk (applyUpdates sampleReport0 sampleOps).1
      (applyUpdates sampleReport0 sampleOps).2 :=
  ⟨rfl,
   report_status_matches_timeline "r1" "Pothole on Main St" none "road" "high"
     sampleLoc [] (some samplePlainUser) 7 sampleReport0 sampleOps rfl⟩

/-- Claim C2: an actor whose role is neither `admin` nor `technician` always
gets `Forbidden` from `UpdateStatus` (so no timeline entry is appended); the
client's `handleStatusUpdate` issues no request for such a user, the
status-update card is not rendered for them, and the card is rendered only
for admin or technician roles. -/
theorem updateStatus_forbidden_for_non_staff (actor : Identity)
    (h1 : actor.role ≠ "admin") (h2 : actor.role ≠ "technician") :
    (∀ r s c t, UpdateStatus r actor s c t = .error .Forbidden) ∧
    (∀ rid s sc, handleStatusUpdate (some actor) rid s sc = .noRequest) ∧
    statusCardRendered (some actor) = false ∧
    (∀ u : Identity, statusCardRendered (some u) = true →
      u.role = "admin" ∨ u.role = "technician") := by
  refine ⟨?_, ?_, ?_, ?_⟩
  · intro r s c t
    unfold UpdateStatus
    rw [if_pos ⟨h1, h2⟩]
  · intro rid s sc
    show (if actor.role ≠ "admin" ∧ actor.role ≠ "technician"
        then ClientAction.noRequest
        else ClientAction.putStatus rid s sc) = ClientAction.noRequest
    rw [if_pos ⟨h1, h2⟩]
  · unfold statusCardRendered
    simp [h1, h2]
  · intro u hu
    unfold statusCardRendered at hu
    simpa using hu

/-- Concrete instance of claim C2 at the plain-role sample user. -/
theorem updateStatus_forbidden_for_non_staff_witness :
    samplePlainUser.role ≠ "admin" ∧
    UpdateStatus sampleReport0 samplePlainUser "resolved" (some "nope") 3 =
      Except.error LMError.Forbidden ∧
    handleStatusUpdate (some samplePlainUser) "r1" "resolved" "" =
      ClientAction.noRequest ∧
    statusCardRendered (some samplePlainUser) = false :=
  ⟨by decide,
   (updateStatus_forbidden_for_non_staff samplePlainUser (by decide)
      (by decide)).1 sampleReport0 "resolved" (some "nope") 3,
   (updateStatus_forbidden_for_non_staff samplePlainUser (by decide)
      (by decide)).2.1 "r1" "resolved" "",
   (updateStatus_forbidden_for_non_staff samplePlainUser (by decide)
      (by decide)).2.2.1⟩

/-- Claim C4: an unauthenticated `AddComment` always fails `Unauthorized`
without appending anything; the client's `handleAddComment` issues no request
when the user is null; and the add-comment button is disabled exactly when
the trimmed comment text is empty, so a whitespace-only comment cannot be
submitted. -/
theorem addComment_unauthorized :
    (∀ comments re text now,
      AddComment comments re none text now = .error .Unauthorized) ∧
    (∀ rid c, handleAddComment none rid c = .noRequest) ∧
    (∀ s : String, addCommentBtnDisabled s = true ↔ jsTrim s = "") := by
  refine ⟨fun _ _ _ _ => rfl, fun _ _ => rfl, ?_⟩
  intro s
  unfold addCommentBtnDisabled
  exact beq_iff_eq

/-- Concrete instance of claim C4: no identity, whitespace-only text. -/
theorem addComment_unauthorized_witness :
    AddComment [] true none "hello" 4 = Except.error LMError.Unauthorized ∧
    handleAddComment none "r1" "hello" = ClientAction.noRequest ∧
    addCommentBtnDisabled "   " = true :=
  ⟨addComment_unauthorized.1 [] true "hello" 4,
   addComment_unauthorized.2.1 "r1" "hello",
   (addComment_unauthorized.2.2 "   ").mpr (by decide)⟩

/-- Claim C5: the update-status button is disabled exactly when the selected
status equals the report's current status and the status comment is empty,
while the manager itself, invoked by a staff actor with that same redundant
status, still accepts and appends a redundant timeline entry (no server-side
idempotence guard). -/
theorem redundant_update_client_gate (r : Report) (actor : Identity)
    (c : Option String) (t : Nat)
    (hrole : actor.role = "admin" ∨ actor.role = "technician")
    (hst : r.status ∈ validStatuses) :
    (∀ ns sc, updateStatusBtnDisabled ns r.status sc = true ↔
      (ns = r.status ∧ sc = "")) ∧
    UpdateStatus r actor r.status c t =
      .ok { r with status := r.status,
                   timeline := r.timeline ++ [⟨r.status, c, actor.id, t⟩] } := by
  constructor
  · intro ns sc
    unfold updateStatusBtnDisabled
    simp
  · unfold UpdateStatus
    have hnot : ¬ (actor.role ≠ "admin" ∧ actor.role ≠ "technician") := by
      rcases hrole with h | h
      · exact fun hh => hh.1 h
      · exact fun hh => hh.2 h
    rw [if_neg hnot, if_neg (by simpa using hst)]

/-- Concrete instance of claim C5: a redundant `registered` update by the
sample technician is accepted and appends an entry, while the button gate is
disabled exactly on the redundant-and-empty combination. -/
theorem redundant_update_client_gate_witness :
    (sampleReport0.status ∈ validStatuses) ∧
    updateStatusBtnDisabled "registered" sampleReport0.status "" = true ∧
    updateStatusBtnDisabled "registered" sampleReport0.status "note" = false ∧
    UpdateStatus sampleReport0 sampleTech sampleReport0.status none 11 =
      .ok { sampleReport0 with
              status := sampleReport0.status,
              timeline := sampleReport0.timeline ++
                [⟨sampleReport0.status, none, sampleTech.id, 11⟩] } := by
  have h := redundant_update_client_gate sampleReport0 sampleTech none 11
    (Or.inr rfl) (by decide)
  refine ⟨by decide, (h.1 "registered" "").mpr ⟨rfl, rfl⟩, ?_, h.2⟩
  have h2 := h.1 "registered" "note"
  by_contra hb
  simp only [Bool.not_eq_false] at hb
  exact absurd ((h2.mp hb).2) (by decide)

/-- Claim C6: `AssignTechnician` demands an admin actor and a technician
target — a non-technician target yields `InvalidArgument` (the report, and so
its `assigned_to`, is returned unchanged only on success, never here), a
non-admin actor yields `Forbidden`; the client offers only identities with
role `technician` as targets, and the admin dashboard gate redirects every
non-admin user away. -/
theorem assignTechnician_guards (actor target : Identity) (users : List Identity) :
    (actor.role = "admin" → target.role ≠ "technician" →
      ∀ r, AssignTechnician r actor target = .error .InvalidArgument) ∧
    (actor.role ≠ "admin" →
      ∀ r, AssignTechnician r actor target = .error .Forbidden) ∧
    (∀ u ∈ technicians users, u.role = "technician") ∧
    (actor.role ≠ "admin" → adminGateRedirects (some actor) = true) := by
  refine ⟨?_, ?_, ?_, ?_⟩
  · intro ha ht r
    unfold AssignTechnician
    rw [if_neg (by simp [ha]), if_pos ht]
  · intro ha r
    unfold AssignTechnician
    rw [if_pos ha]
  · intro u hu
    unfold technicians at hu
    rw [List.mem_filter] at hu
    simpa using hu.2
  · intro ha
    show (actor.role != "admin") = true
    simpa using ha

/-- Concrete instance of claim C6: an admin assigning a plain user fails
with `InvalidArgument`; a plain user is redirected off the admin dashboard. -/
theorem assignTechnician_guards_witness :
    sampleAdmin.role = "admin" ∧
    samplePlainUser.role ≠ "technician" ∧
    AssignTechnician sampleReport0 sampleAdmin samplePlainUser =
      Except.error LMError.InvalidArgument ∧
    adminGateRedirects (some samplePlainUser) = true :=
  ⟨rfl, by decide,
   (assignTechnician_guards sampleAdmin samplePlainUser []).1 rfl (by decide)
     sampleReport0,
   (assignTechnician_guards samplePlainUser sampleTech []).2.2.2 (by decide)⟩

/-- Claim C7: starting from at most five stored images, the image selector
rejects (leaves the list unchanged) any selection that would push the total
past five, appends the whole selection in order otherwise, and therefore
never lets the list exceed five entries. -/
theorem imageSelect_bounded (images files : List String)
    (h : images.length ≤ 5) :
    (images.length + files.length > 5 →
      handleImageSelect images files = images) ∧
    (images.length + files.length ≤ 5 →
      handleImageSelect images files = images ++ files) ∧
    (handleImageSelect images files).length ≤ 5 := by
  unfold handleImageSelect
  by_cases hc : images.length + files.length > 5
  · rw [if_pos hc]
    exact ⟨fun _ => rfl, fun hle => absurd hc (by omega), h⟩
  · rw [if_neg hc]
    refine ⟨fun hgt => absurd hgt hc, fun _ => rfl, ?_⟩
    rw [List.length_append]
    omega

/-- Concrete instance of claim C7: appending two files to one is accepted in
order; appending five to one is rejected wholesale; both stay within five. -/
theorem imageSelect_bounded_witness :
    (["a.jpg"] : List String).length ≤ 5 ∧
    handleImageSelect ["a.jpg"] ["b.jpg", "c.jpg"] = ["a.jpg", "b.jpg", "c.jpg"] ∧
    handleImageSelect ["a.jpg"] ["b", "c", "d", "e", "f"] = ["a.jpg"] ∧
    (handleImageSelect ["a.jpg"] ["b", "c", "d", "e", "f"]).length ≤ 5 :=
  ⟨by decide,
   (imageSelect_bounded ["a.jpg"] ["b.jpg", "c.jpg"] (by decide)).2.1 (by decide),
   (imageSelect_bounded ["a.jpg"] ["b", "c", "d", "e", "f"] (by decide)).1
     (by decide),
   (imageSelect_bounded ["a.jpg"] ["b", "c", "d", "e", "f"] (by decide)).2.2⟩

theorem digitChar_isDigit (d : Nat) (h : d < 10) : (digitChar d).isDigit = true := by
  interval_cases d <;> decide

theorem fracDigits6_length (fp : Nat) : (fracDigits6 fp).length = 6 := rfl

theorem fracDigits6_digits (fp : Nat) :
    ∀ c ∈ (fracDigits6 fp).data, c.isDigit = true := by
  intro c hc
  unfold fracDigits6 at hc
  simp only [String.data, List.mem_map, List.mem_cons, List.not_mem_nil,
    or_false] at hc
  obtain ⟨d, hd, rfl⟩ := hc
  have h10 : d < 10 := by
    rcases hd with h | h | h | h | h | h <;> subst h <;>
      exact Nat.mod_lt _ (by omega)
  exact digitChar_isDigit d h10

/-- Claim C9: the reverse-geocoding wrapper never fails the surrounding
operation — it is total over both outcomes; on a geocoding error the address
degrades to the fallback coordinate string, the two coordinates each rendered
with exactly six (digit) decimal places and separated by a comma and a
space. -/
theorem reverseGeocode_fallback (lat lng : Int) (e : String) :
    reverseGeocode (.error e) lat lng = toFixed6 lat ++ ", " ++ toFixed6 lng ∧
    (∀ d, reverseGeocode (.ok d) lat lng = d) ∧
    (∀ m : Int, ∃ a f, toFixed6 m = a ++ "." ++ f ∧ f.length = 6 ∧
      ∀ c ∈ f.data, c.isDigit = true) := by
  refine ⟨rfl, fun d => rfl, ?_⟩
  intro m
  exact ⟨(if m < 0 then "-" else "") ++ toString (m.natAbs / 1000000),
    fracDigits6 (m.natAbs % 1000000), rfl, fracDigits6_length _,
    fracDigits6_digits _⟩

/-- Concrete instance of claim C9 at the sample coordinates. -/
theorem reverseGeocode_fallback_witness :
    reverseGeocode (Except.error "network down") 40000000 (-75000000) =
      "40.000000, -75.000000" := by
  rw [(reverseGeocode_fallback 40000000 (-75000000) "network down").1]
  decide

end CivicConnect
